import Mathlib

/-!
Shallow embedding of `src/01-teams-bot/src/genie_client.py` — the Genie
conversation polling and response-normalization client.

Remote I/O (HTTP POST/GET, the secondary query-result fetch) is modelled by
oracles bundled in `Env`: each remote operation is a function returning
`Except String _`, where `Except.error e` stands for a raised transport
exception (`resp.raise_for_status()` failing, or a network error) and
`Except.ok` for a successful JSON body.  A Python `Optional`/missing JSON key
is `Option`; Python float arithmetic on the poll interval is modelled in `ℚ`
(every value reached — powers of 1.5 up to the cap, and the cap 10 — is a
dyadic rational represented exactly by IEEE doubles, so `ℚ` is exact here).
The poll loop carries a fuel parameter as a termination device; the real loop
adds at least 1 to `elapsed` per iteration and stops at 300, so fuel 301 is
never exhausted (`pollLoop_fuel_stable` below makes this precise).
-/

/-- One element of `data["attachments"]` in a Genie message response.
`text = some c` models a truthy `att["text"]` dict whose
`att["text"].get("content", "")` is `c`; `none` models an absent or falsy
`text` field (both are skipped by the code).  `query` likewise models
`att["query"].get("query", "")`.  `attachment_id` is `att.get("attachment_id")`
(`none` = key absent / JSON null). -/
structure Attachment where
  text : Option String := none
  query : Option String := none
  attachment_id : Option String := none
deriving DecidableEq

/-- The JSON body of a GET-message response: `status`, `error`, `attachments`.
`data.get("attachments") or []` maps both a missing key and JSON null/[]
to the empty list, so `attachments` is a plain list. -/
structure MessageData where
  status : Option String := none
  error : Option String := none
  attachments : List Attachment := []
deriving DecidableEq

/-- The JSON body of the start-conversation POST response. -/
structure StartData where
  conversation_id : Option String := none
  message_id : Option String := none
  id : Option String := none
deriving DecidableEq

/-- The JSON body of the follow-up (send message) POST response. -/
structure FollowData where
  id : Option String := none
deriving DecidableEq

/-- The JSON body of the secondary query-result fetch: `qr.get("columns", [])`
and `qr.get("rows", [])`.  Column descriptors and row values are opaque
payloads, modelled as strings. -/
structure QueryResultData where
  columns : List String := []
  rows : List String := []
deriving DecidableEq

/-- Structure `GenieResult` — the structured result dataclass. -/
structure GenieResult where
  status : String
  text : Option String := none
  sql : Option String := none
  columns : List String := []
  rows : List String := []
  error : Option String := none
  conversation_id : Option String := none
  message_id : Option String := none
deriving DecidableEq

/-- The remote service, as oracles.  `startResp question` is the
start-conversation POST; `followResp conv_id question` is the follow-up POST;
`pollResp n` is the n-th GET of the message status (the remote state may
change between polls, hence the index); `fetchQR attachment_id` is the
query-result GET. -/
structure Env where
  startResp : String → Except String StartData
  followResp : String → String → Except String FollowData
  pollResp : Nat → Except String MessageData
  fetchQR : String → Except String QueryResultData

def POLL_INTERVAL_INITIAL : ℚ := 1

def POLL_INTERVAL_MAX : ℚ := 10

def POLL_TIMEOUT : ℚ := 300

/-- Python `status in ("COMPLETED", "FAILED", "CANCELLED")`. -/
def isTerminal (s : String) : Bool :=
  s == "COMPLETED" || s == "FAILED" || s == "CANCELLED"

/-- Accumulator of the attachment loop in `_parse_response`, plus the
instrumentation field `issued`: the attachment ids for which a secondary
query-result fetch was issued (whether or not it succeeded). -/
structure ScanState where
  text : Option String := none
  sql : Option String := none
  columns : List String := []
  rows : List String := []
  issued : List String := []
deriving DecidableEq

/-- One iteration of `for att in attachments` in `_parse_response`:
`if att.get("text"): text_content = att["text"].get("content", "")`,
`if att.get("query"): sql_content = att["query"].get("query", "")`, then
`if att_id and status == "COMPLETED"` try the query-result fetch, assigning
`columns`/`rows` on success and swallowing the exception on failure. -/
def scanStep (fetch : String → Except String QueryResultData) (status : String)
    (st : ScanState) (att : Attachment) : ScanState :=
  let st1 := match att.text with
    | some c => { st with text := some c }
    | none => st
  let st2 := match att.query with
    | some q => { st1 with sql := some q }
    | none => st1
  match att.attachment_id with
  | some aid =>
    if aid ≠ "" ∧ status = "COMPLETED" then
      match fetch aid with
      | .ok qr =>
        { st2 with
          columns := qr.columns
          rows := qr.rows
          issued := st2.issued ++ [aid] }
      | .error _ => { st2 with issued := st2.issued ++ [aid] }
    else st2
  | none => st2

/-- The whole `for att in attachments` loop, from the initial
`text_content = None; sql_content = None; columns = []; rows = []`. -/
def scanAttachments (fetch : String → Except String QueryResultData)
    (status : String) (atts : List Attachment) : ScanState :=
  atts.foldl (scanStep fetch status) {}

/-- Python `str(error) if error else None`: a truthy (non-empty) remote error string
is copied; a missing or empty one becomes `None`. -/
def normalizeError (error : Option String) : Option String :=
  match error with
  | some e => if e = "" then none else some e
  | none => none

/-- Embedding of `GenieClient._parse_response`. -/
def parse_response (fetch : String → Except String QueryResultData)
    (data : MessageData) (conversation_id message_id : String) : GenieResult :=
  let status := data.status.getD "UNKNOWN"
  let st := scanAttachments fetch status data.attachments
  { status := status
    text := st.text
    sql := st.sql
    columns := st.columns
    rows := st.rows
    error := normalizeError data.error
    conversation_id := some conversation_id
    message_id := some message_id }

/-- The `GenieResult` built when the poll budget is exhausted. -/
def timeoutResult (conversation_id message_id : String) : GenieResult :=
  { status := "TIMEOUT"
    error := some "Genie did not respond within the timeout period."
    conversation_id := some conversation_id
    message_id := some message_id }

/-- Python `min(a, b)` on floats: returns `a` when `a <= b`, else `b`. -/
def pymin (a b : ℚ) : ℚ := if a ≤ b then a else b

instance {ε α : Type} [DecidableEq ε] [DecidableEq α] :
    DecidableEq (Except ε α)
  | .ok a, .ok b =>
    if h : a = b then isTrue (by rw [h])
    else isFalse (fun hc => h (Except.ok.inj hc))
  | .ok _, .error _ => isFalse (fun hc => Except.noConfusion hc)
  | .error _, .ok _ => isFalse (fun hc => Except.noConfusion hc)
  | .error a, .error b =>
    if h : a = b then isTrue (by rw [h])
    else isFalse (fun hc => h (Except.error.inj hc))

/-- Outcome of `_poll`, plus the instrumentation field `delays`: the sequence
of `time.sleep(interval)` durations performed, in order. -/
structure PollOutcome where
  result : Except String GenieResult
  delays : List ℚ
deriving DecidableEq

/-- The `while elapsed < POLL_TIMEOUT` loop of `GenieClient._poll`.
Each iteration sleeps `interval` (recorded in `delays`), adds it to
`elapsed`, issues the n-th GET (an error raises, i.e. propagates as
`Except.error`), returns `_parse_response` on a terminal status, and
otherwise continues with `interval = min(interval * 1.5, POLL_INTERVAL_MAX)`.
`fuel` is a termination device only; see `pollLoop_fuel_stable`. -/
def pollLoop (responses : Nat → Except String MessageData)
    (fetch : String → Except String QueryResultData)
    (conversation_id message_id : String) :
    Nat → Nat → ℚ → ℚ → PollOutcome
  | 0, _, _, _ => ⟨.ok (timeoutResult conversation_id message_id), []⟩
  | fuel + 1, n, interval, elapsed =>
    if elapsed < POLL_TIMEOUT then
      match responses n with
      | .error e => ⟨.error e, [interval]⟩
      | .ok data =>
        if isTerminal (data.status.getD "") then
          ⟨.ok (parse_response fetch data conversation_id message_id), [interval]⟩
        else
          let rest := pollLoop responses fetch conversation_id message_id fuel
            (n + 1) (pymin (interval * (3 / 2)) POLL_INTERVAL_MAX)
            (elapsed + interval)
          ⟨rest.result, interval :: rest.delays⟩
    else
      ⟨.ok (timeoutResult conversation_id message_id), []⟩

/-- Embedding of `GenieClient._poll`: the loop entered with `interval =
POLL_INTERVAL_INITIAL` and `elapsed = 0.0`.  Fuel 301 is never exhausted
(`pollLoop_fuel_stable`). -/
def poll (responses : Nat → Except String MessageData)
    (fetch : String → Except String QueryResultData)
    (conversation_id message_id : String) : PollOutcome :=
  pollLoop responses fetch conversation_id message_id 301 0 POLL_INTERVAL_INITIAL 0

/-- Python `msg_id = data.get("message_id") or data.get("id", "")`: `or`
takes the right operand when the left is falsy (None or ""). -/
def start_msg_id (data : StartData) : String :=
  match data.message_id with
  | some m => if m = "" then data.id.getD "" else m
  | none => data.id.getD ""

/-- Embedding of `GenieClient._start_conversation`: POST, raise on failure,
then poll with the returned conversation and message ids. -/
def start_conversation (env : Env) (question : String) :
    Except String GenieResult :=
  match env.startResp question with
  | .error e => .error e
  | .ok data =>
    (poll env.pollResp env.fetchQR (data.conversation_id.getD "")
      (start_msg_id data)).result

/-- Embedding of `GenieClient._follow_up`: POST to the conversation, raise on
transport failure, then poll with the caller's conversation id unchanged. -/
def follow_up (env : Env) (conversation_id question : String) :
    Except String GenieResult :=
  match env.followResp conversation_id question with
  | .error e => .error e
  | .ok data =>
    (poll env.pollResp env.fetchQR conversation_id (data.id.getD "")).result

/-- Embedding of `GenieClient.ask`: `if conversation_id:` (truthy — non-empty
string) dispatches to `_follow_up`, else `_start_conversation`. -/
def ask (env : Env) (question : String)
    (conversation_id : Option String := none) : Except String GenieResult :=
  match conversation_id with
  | some cid => if cid = "" then start_conversation env question
                else follow_up env cid question
  | none => start_conversation env question

/-- The backoff delay generator: the value of `interval` at the n-th
iteration of the poll loop (n-th sleep), starting at `POLL_INTERVAL_INITIAL`
and updated by `interval = min(interval * 1.5, POLL_INTERVAL_MAX)`. -/
def backoffDelay : Nat → ℚ
  | 0 => POLL_INTERVAL_INITIAL
  | n + 1 => pymin (backoffDelay n * (3 / 2)) POLL_INTERVAL_MAX

/-- The last `some` produced by `f` over a list, scanning left to right —
"the last non-empty payload seen". -/
def lastPayload (f : Attachment → Option String) (atts : List Attachment) :
    Option String :=
  atts.foldl (fun acc att => (f att).or acc) none

/-! ## Concrete environments used to instantiate theorems -/

/-- A backend whose submission POST fails with a transport error. -/
def envSubmitFail : Env :=
  { startResp := fun _ => .error "boom"
    followResp := fun _ _ => .error "boom"
    pollResp := fun _ => .ok { status := some "PENDING" }
    fetchQR := fun _ => .error "x" }

/-- A backend whose submission succeeds but whose first status GET fails. -/
def envPollFail : Env :=
  { startResp := fun _ =>
      .ok { conversation_id := some "c", message_id := some "m" }
    followResp := fun _ _ => .ok { id := some "m" }
    pollResp := fun _ => .error "boom"
    fetchQR := fun _ => .error "x" }

/-- A backend that immediately completes with no attachments. -/
def envOk : Env :=
  { startResp := fun _ =>
      .ok { conversation_id := some "c", message_id := some "m" }
    followResp := fun _ _ => .ok { id := some "m" }
    pollResp := fun _ => .ok { status := some "COMPLETED" }
    fetchQR := fun _ => .error "x" }

/-- A terminal FAILED response carrying a remote error message. -/
def dataFailed : MessageData :=
  { status := some "FAILED", error := some "remote broke" }

/-- A terminal COMPLETED response with one attachment that has a text
payload and a tabular-result identifier. -/
def dataCompleted : MessageData :=
  { status := some "COMPLETED"
    attachments := [{ text := some "hi", attachment_id := some "a1" }] }

/-- A query-result fetch that always fails with a transport error. -/
def fetchFail : String → Except String QueryResultData := fun _ => .error "net"

/-! ## Step lemmas for the poll loop -/

lemma pollLoop_budget_exhausted (responses : Nat → Except String MessageData)
    (fetch : String → Except String QueryResultData) (cid mid : String)
    (fuel n : Nat) (interval elapsed : ℚ) (h : ¬ elapsed < POLL_TIMEOUT) :
    pollLoop responses fetch cid mid (fuel + 1) n interval elapsed
      = ⟨.ok (timeoutResult cid mid), []⟩ := by
  rw [pollLoop, if_neg h]

lemma pollLoop_step_error (responses : Nat → Except String MessageData)
    (fetch : String → Except String QueryResultData) (cid mid : String)
    (fuel n : Nat) (interval elapsed : ℚ) (err : String)
    (h : elapsed < POLL_TIMEOUT) (hr : responses n = .error err) :
    pollLoop responses fetch cid mid (fuel + 1) n interval elapsed
      = ⟨.error err, [interval]⟩ := by
  rw [pollLoop, if_pos h, hr]

lemma pollLoop_step_terminal (responses : Nat → Except String MessageData)
    (fetch : String → Except String QueryResultData) (cid mid : String)
    (fuel n : Nat) (interval elapsed : ℚ) (data : MessageData)
    (h : elapsed < POLL_TIMEOUT) (hr : responses n = .ok data)
    (ht : isTerminal (data.status.getD "") = true) :
    pollLoop responses fetch cid mid (fuel + 1) n interval elapsed
      = ⟨.ok (parse_response fetch data cid mid), [interval]⟩ := by
  rw [pollLoop, if_pos h, hr]
  dsimp only
  rw [if_pos ht]

lemma pollLoop_step_cont (responses : Nat → Except String MessageData)
    (fetch : String → Except String QueryResultData) (cid mid : String)
    (fuel n : Nat) (interval elapsed : ℚ) (data : MessageData)
    (h : elapsed < POLL_TIMEOUT) (hr : responses n = .ok data)
    (ht : isTerminal (data.status.getD "") = false) :
    pollLoop responses fetch cid mid (fuel + 1) n interval elapsed
      = ⟨(pollLoop responses fetch cid mid fuel (n + 1)
            (pymin (interval * (3 / 2)) POLL_INTERVAL_MAX)
            (elapsed + interval)).result,
         interval ::
           (pollLoop responses fetch cid mid fuel (n + 1)
             (pymin (interval * (3 / 2)) POLL_INTERVAL_MAX)
             (elapsed + interval)).delays⟩ := by
  rw [pollLoop, if_pos h, hr]
  dsimp only
  rw [if_neg (by simp [ht])]

/-- Every `Except.ok` outcome of the poll loop is either the synthesized
timeout result or the normalization of some remote response observed with a
terminal status. -/
lemma pollLoop_ok_characterization (responses : Nat → Except String MessageData)
    (fetch : String → Except String QueryResultData) (cid mid : String) :
    ∀ (fuel n : Nat) (interval elapsed : ℚ) (res : GenieResult),
      (pollLoop responses fetch cid mid fuel n interval elapsed).result
          = .ok res →
        res = timeoutResult cid mid ∨
          ∃ data, (∃ k, responses k = .ok data) ∧
            isTerminal (data.status.getD "") = true ∧
            res = parse_response fetch data cid mid := by
  intro fuel
  induction fuel with
  | zero =>
    intro n interval elapsed res h
    rw [pollLoop] at h
    exact Or.inl (Except.ok.inj h).symm
  | succ fuel ih =>
    intro n interval elapsed res h
    by_cases hb : elapsed < POLL_TIMEOUT
    · cases hr : responses n with
      | error err =>
        rw [pollLoop_step_error responses fetch cid mid fuel n interval elapsed
          err hb hr] at h
        exact absurd h (by simp)
      | ok data =>
        cases ht : isTerminal (data.status.getD "") with
        | true =>
          rw [pollLoop_step_terminal responses fetch cid mid fuel n interval
            elapsed data hb hr ht] at h
          exact Or.inr ⟨data, ⟨n, hr⟩, ht, (Except.ok.inj h).symm⟩
        | false =>
          rw [pollLoop_step_cont responses fetch cid mid fuel n interval
            elapsed data hb hr ht] at h
          exact ih (n + 1) (pymin (interval * (3 / 2)) POLL_INTERVAL_MAX)
            (elapsed + interval) res h
    · rw [pollLoop_budget_exhausted responses fetch cid mid fuel n interval
        elapsed hb] at h
      exact Or.inl (Except.ok.inj h).symm

/-- If every poll observation succeeds with a non-terminal status, the loop
returns the synthesized TIMEOUT result (it does not raise). -/
lemma pollLoop_all_nonterminal (responses : Nat → Except String MessageData)
    (fetch : String → Except String QueryResultData) (cid mid : String)
    (hall : ∀ k, ∃ d, responses k = .ok d ∧ isTerminal (d.status.getD "") = false) :
    ∀ (fuel n : Nat) (interval elapsed : ℚ),
      (pollLoop responses fetch cid mid fuel n interval elapsed).result
        = .ok (timeoutResult cid mid) := by
  intro fuel
  induction fuel with
  | zero => intro n interval elapsed; rw [pollLoop]
  | succ fuel ih =>
    intro n interval elapsed
    by_cases hb : elapsed < POLL_TIMEOUT
    · rcases hall n with ⟨d, hr, ht⟩
      rw [pollLoop_step_cont responses fetch cid mid fuel n interval elapsed
        d hb hr ht]
      exact ih (n + 1) (pymin (interval * (3 / 2)) POLL_INTERVAL_MAX)
        (elapsed + interval)
    · rw [pollLoop_budget_exhausted responses fetch cid mid fuel n interval
        elapsed hb]

lemma one_le_pymin_next (interval : ℚ) (hi : 1 ≤ interval) :
    1 ≤ pymin (interval * (3 / 2)) POLL_INTERVAL_MAX := by
  unfold pymin POLL_INTERVAL_MAX
  split <;> linarith

lemma backoffDelay_bounds (n : Nat) :
    1 ≤ backoffDelay n ∧ backoffDelay n ≤ POLL_INTERVAL_MAX := by
  induction n with
  | zero =>
    unfold backoffDelay POLL_INTERVAL_INITIAL POLL_INTERVAL_MAX
    norm_num
  | succ n ih =>
    unfold backoffDelay pymin
    unfold POLL_INTERVAL_MAX at *
    rcases ih with ⟨h1, h2⟩
    split <;> constructor <;> linarith

/-- The sleep delays recorded by the poll loop, entered with interval
`backoffDelay k`, are successive values of `backoffDelay` from index k. -/
lemma pollLoop_delays_eq (responses : Nat → Except String MessageData)
    (fetch : String → Except String QueryResultData) (cid mid : String) :
    ∀ (fuel k n : Nat) (elapsed : ℚ),
      (pollLoop responses fetch cid mid fuel n (backoffDelay k) elapsed).delays
        = (List.range (pollLoop responses fetch cid mid fuel n (backoffDelay k)
            elapsed).delays.length).map (fun i => backoffDelay (k + i)) := by
  intro fuel
  induction fuel with
  | zero => intro k n elapsed; rw [pollLoop]; simp
  | succ fuel ih =>
    intro k n elapsed
    by_cases hb : elapsed < POLL_TIMEOUT
    · cases hr : responses n with
      | error err =>
        rw [pollLoop_step_error responses fetch cid mid fuel n (backoffDelay k)
          elapsed err hb hr]
        simp [List.range_succ]
      | ok data =>
        cases ht : isTerminal (data.status.getD "") with
        | true =>
          rw [pollLoop_step_terminal responses fetch cid mid fuel n
            (backoffDelay k) elapsed data hb hr ht]
          simp [List.range_succ]
        | false =>
          rw [pollLoop_step_cont responses fetch cid mid fuel n (backoffDelay k)
            elapsed data hb hr ht]
          have hnext : pymin (backoffDelay k * (3 / 2)) POLL_INTERVAL_MAX
              = backoffDelay (k + 1) := rfl
          rw [hnext]
          dsimp only
          rw [ih (k + 1) (n + 1) (elapsed + backoffDelay k)]
          simp only [List.length_cons, List.length_map, List.length_range,
            List.range_succ_eq_map, List.map_cons, List.map_map]
          congr 1
          apply List.map_congr_left
          intro i _
          congr 1
          omega
    · rw [pollLoop_budget_exhausted responses fetch cid mid fuel n
        (backoffDelay k) elapsed hb]
      simp

/-- The poll loop performs at most k sleeps when the budget is at most
`elapsed + k` and every interval is at least 1. -/
lemma pollLoop_len_le (responses : Nat → Except String MessageData)
    (fetch : String → Except String QueryResultData) (cid mid : String) :
    ∀ (fuel k n : Nat) (interval elapsed : ℚ), 1 ≤ interval →
      POLL_TIMEOUT ≤ elapsed + k →
      (pollLoop responses fetch cid mid fuel n interval elapsed).delays.length
        ≤ k := by
  intro fuel
  induction fuel with
  | zero => intro k n interval elapsed _ _; rw [pollLoop]; simp
  | succ fuel ih =>
    intro k n interval elapsed hi hk
    by_cases hb : elapsed < POLL_TIMEOUT
    · have hkpos : k ≠ 0 := by
        rintro rfl
        rw [Nat.cast_zero, add_zero] at hk
        exact absurd hb (not_lt.mpr hk)
      rcases Nat.exists_eq_succ_of_ne_zero hkpos with ⟨k', rfl⟩
      cases hr : responses n with
      | error err =>
        rw [pollLoop_step_error responses fetch cid mid fuel n interval
          elapsed err hb hr]
        simp
      | ok data =>
        cases ht : isTerminal (data.status.getD "") with
        | true =>
          rw [pollLoop_step_terminal responses fetch cid mid fuel n interval
            elapsed data hb hr ht]
          simp
        | false =>
          rw [pollLoop_step_cont responses fetch cid mid fuel n interval
            elapsed data hb hr ht]
          dsimp only [List.length_cons]
          have hrec := ih k' (n + 1) (pymin (interval * (3 / 2))
            POLL_INTERVAL_MAX) (elapsed + interval)
            (one_le_pymin_next interval hi)
            (by push_cast at hk ⊢; linarith)
          omega
    · rw [pollLoop_budget_exhausted responses fetch cid mid fuel n interval
        elapsed hb]
      simp

/-- Adding fuel beyond the budget does not change the loop's behaviour. -/
lemma pollLoop_fuel_succ (responses : Nat → Except String MessageData)
    (fetch : String → Except String QueryResultData) (cid mid : String) :
    ∀ (fuel n : Nat) (interval elapsed : ℚ), 1 ≤ interval →
      POLL_TIMEOUT ≤ elapsed + fuel →
      pollLoop responses fetch cid mid (fuel + 1) n interval elapsed
        = pollLoop responses fetch cid mid fuel n interval elapsed := by
  intro fuel
  induction fuel with
  | zero =>
    intro n interval elapsed _ hf
    rw [Nat.cast_zero, add_zero] at hf
    rw [pollLoop_budget_exhausted responses fetch cid mid 0 n interval
      elapsed (not_lt.mpr hf)]
    rw [pollLoop]
  | succ fuel ih =>
    intro n interval elapsed hi hf
    by_cases hb : elapsed < POLL_TIMEOUT
    · cases hr : responses n with
      | error err =>
        rw [pollLoop_step_error responses fetch cid mid (fuel + 1) n interval
          elapsed err hb hr]
        rw [pollLoop_step_error responses fetch cid mid fuel n interval
          elapsed err hb hr]
      | ok data =>
        cases ht : isTerminal (data.status.getD "") with
        | true =>
          rw [pollLoop_step_terminal responses fetch cid mid (fuel + 1) n
            interval elapsed data hb hr ht]
          rw [pollLoop_step_terminal responses fetch cid mid fuel n interval
            elapsed data hb hr ht]
        | false =>
          rw [pollLoop_step_cont responses fetch cid mid (fuel + 1) n interval
            elapsed data hb hr ht]
          rw [pollLoop_step_cont responses fetch cid mid fuel n interval
            elapsed data hb hr ht]
          rw [ih (n + 1) (pymin (interval * (3 / 2)) POLL_INTERVAL_MAX)
            (elapsed + interval) (one_le_pymin_next interval hi)
            (by push_cast at hf ⊢; linarith)]
    · rw [pollLoop_budget_exhausted responses fetch cid mid (fuel + 1) n
        interval elapsed hb]
      rw [pollLoop_budget_exhausted responses fetch cid mid fuel n interval
        elapsed hb]

/-- Fuel 301 is enough: any larger fuel gives the same outcome as `poll`,
so the fuel parameter is a pure termination device. -/
lemma pollLoop_fuel_stable (responses : Nat → Except String MessageData)
    (fetch : String → Except String QueryResultData) (cid mid : String)
    (fuel : Nat) (hf : 301 ≤ fuel) :
    pollLoop responses fetch cid mid fuel 0 POLL_INTERVAL_INITIAL 0
      = poll responses fetch cid mid := by
  induction fuel, hf using Nat.le_induction with
  | base => rfl
  | succ fuel hf ih =>
    rw [← ih]
    apply pollLoop_fuel_succ
    · unfold POLL_INTERVAL_INITIAL; norm_num
    · unfold POLL_TIMEOUT
      have : (301 : ℚ) ≤ fuel := by exact_mod_cast hf
      linarith

/-! ## Helper lemmas about the attachment scan -/

lemma scanStep_text (fetch : String → Except String QueryResultData)
    (status : String) (st : ScanState) (att : Attachment) :
    (scanStep fetch status st att).text = att.text.or st.text := by
  rcases att with ⟨t, q, aid⟩
  unfold scanStep
  cases t <;> cases q <;> cases aid <;>
    simp only [Option.or] <;>
    (split <;> [skip; rfl]) <;>
    (split <;> rfl)

lemma scanStep_sql (fetch : String → Except String QueryResultData)
    (status : String) (st : ScanState) (att : Attachment) :
    (scanStep fetch status st att).sql = att.query.or st.sql := by
  rcases att with ⟨t, q, aid⟩
  unfold scanStep
  cases t <;> cases q <;> cases aid <;>
    simp only [Option.or] <;>
    (split <;> [skip; rfl]) <;>
    (split <;> rfl)

lemma or_foldl_init (g : Attachment → Option String) (atts : List Attachment)
    (init : Option String) :
    atts.foldl (fun acc att => (g att).or acc) init
      = (lastPayload g atts).or init := by
  induction atts generalizing init with
  | nil => rfl
  | cons a rest ih =>
    simp only [lastPayload, List.foldl_cons] at *
    rw [ih ((g a).or none), ih ((g a).or init)]
    simp only [Option.or_assoc, Option.or_none]

lemma scan_foldl_text (fetch : String → Except String QueryResultData)
    (status : String) (atts : List Attachment) (st : ScanState) :
    (atts.foldl (scanStep fetch status) st).text
      = (lastPayload (fun a => a.text) atts).or st.text := by
  induction atts generalizing st with
  | nil => rfl
  | cons a rest ih =>
    rw [List.foldl_cons, ih, scanStep_text]
    simp only [lastPayload, List.foldl_cons]
    rw [or_foldl_init (fun a => a.text) rest ((a.text).or none)]
    simp only [Option.or_assoc, Option.or_none, lastPayload]

lemma scan_foldl_sql (fetch : String → Except String QueryResultData)
    (status : String) (atts : List Attachment) (st : ScanState) :
    (atts.foldl (scanStep fetch status) st).sql
      = (lastPayload (fun a => a.query) atts).or st.sql := by
  induction atts generalizing st with
  | nil => rfl
  | cons a rest ih =>
    rw [List.foldl_cons, ih, scanStep_sql]
    simp only [lastPayload, List.foldl_cons]
    rw [or_foldl_init (fun a => a.query) rest ((a.query).or none)]
    simp only [Option.or_assoc, Option.or_none, lastPayload]

lemma scanStep_issued (fetch : String → Except String QueryResultData)
    (status : String) (st : ScanState) (att : Attachment) :
    (scanStep fetch status st att).issued
      = match att.attachment_id with
        | some aid =>
          if aid ≠ "" ∧ status = "COMPLETED" then st.issued ++ [aid]
          else st.issued
        | none => st.issued := by
  rcases att with ⟨t, q, aid⟩
  unfold scanStep
  cases t <;> cases q <;> cases aid <;> dsimp only <;>
    (split <;> [skip; rfl]) <;> (split <;> rfl)

lemma scan_issued_sound (fetch : String → Except String QueryResultData)
    (status : String) (atts : List Attachment) (st : ScanState) (aid : String) :
    aid ∈ (atts.foldl (scanStep fetch status) st).issued →
      aid ∈ st.issued ∨
        (status = "COMPLETED" ∧ aid ≠ "" ∧
          ∃ att ∈ atts, att.attachment_id = some aid) := by
  induction atts generalizing st with
  | nil => intro h; exact Or.inl h
  | cons a rest ih =>
    intro h
    rw [List.foldl_cons] at h
    rcases ih (scanStep fetch status st a) h with h' | ⟨hs, hne, att, hmem, hatt⟩
    · rw [scanStep_issued] at h'
      rcases ha : a.attachment_id with _ | aid'
      · rw [ha] at h'; exact Or.inl h'
      · rw [ha] at h'
        dsimp only at h'
        by_cases hc : aid' ≠ "" ∧ status = "COMPLETED"
        · rw [if_pos hc] at h'
          rcases List.mem_append.mp h' with h'' | h''
          · exact Or.inl h''
          · have : aid = aid' := List.mem_singleton.mp h''
            subst this
            exact Or.inr ⟨hc.2, hc.1, a, List.mem_cons_self a rest, ha⟩
        · rw [if_neg hc] at h'; exact Or.inl h'
    · exact Or.inr ⟨hs, hne, att, List.mem_cons_of_mem a hmem, hatt⟩

lemma scanStep_cols_rows_of_fail (fetch : String → Except String QueryResultData)
    (status : String) (st : ScanState) (att : Attachment)
    (hf : ∀ a, ∃ e, fetch a = Except.error e) :
    (scanStep fetch status st att).columns = st.columns ∧
      (scanStep fetch status st att).rows = st.rows := by
  rcases att with ⟨t, q, aid⟩
  unfold scanStep
  cases t <;> cases q <;> cases aid <;> dsimp only <;>
    (try exact ⟨rfl, rfl⟩) <;>
    (split <;> [skip; exact ⟨rfl, rfl⟩]) <;>
    (rename_i aid' _; rcases hf aid' with ⟨e, he⟩; rw [he]; exact ⟨rfl, rfl⟩)

lemma scan_cols_rows_of_fail (fetch : String → Except String QueryResultData)
    (status : String) (atts : List Attachment) (st : ScanState)
    (hf : ∀ a, ∃ e, fetch a = Except.error e) :
    (atts.foldl (scanStep fetch status) st).columns = st.columns ∧
      (atts.foldl (scanStep fetch status) st).rows = st.rows := by
  induction atts generalizing st with
  | nil => exact ⟨rfl, rfl⟩
  | cons a rest ih =>
    rw [List.foldl_cons]
    rcases ih (scanStep fetch status st a) with ⟨hc, hr⟩
    rcases scanStep_cols_rows_of_fail fetch status st a hf with ⟨hc', hr'⟩
    exact ⟨hc.trans hc', hr.trans hr'⟩

lemma scanStep_cols_rows_of_not_completed
    (fetch : String → Except String QueryResultData) (status : String)
    (st : ScanState) (att : Attachment) (hs : status ≠ "COMPLETED") :
    (scanStep fetch status st att).columns = st.columns ∧
      (scanStep fetch status st att).rows = st.rows := by
  rcases att with ⟨t, q, aid⟩
  unfold scanStep
  cases t <;> cases q <;> cases aid <;> dsimp only <;>
    (try exact ⟨rfl, rfl⟩) <;>
    (split <;> [skip; exact ⟨rfl, rfl⟩]) <;>
    (rename_i hc; exact absurd hc.2 hs)

lemma scan_cols_rows_of_not_completed
    (fetch : String → Except String QueryResultData) (status : String)
    (atts : List Attachment) (st : ScanState) (hs : status ≠ "COMPLETED") :
    (atts.foldl (scanStep fetch status) st).columns = st.columns ∧
      (atts.foldl (scanStep fetch status) st).rows = st.rows := by
  induction atts generalizing st with
  | nil => exact ⟨rfl, rfl⟩
  | cons a rest ih =>
    rw [List.foldl_cons]
    rcases ih (scanStep fetch status st a) with ⟨hc, hr⟩
    rcases scanStep_cols_rows_of_not_completed fetch status st a hs with ⟨hc', hr'⟩
    exact ⟨hc.trans hc', hr.trans hr'⟩

lemma lastPayload_eq_getLast (g : Attachment → Option String)
    (atts : List Attachment) :
    lastPayload g atts = (atts.filterMap g).getLast? := by
  induction atts using List.reverseRecOn with
  | nil => rfl
  | append_singleton l a ih =>
    rw [lastPayload, List.foldl_append, List.foldl_cons, List.foldl_nil,
      List.filterMap_append]
    rw [lastPayload] at ih
    cases hg : g a with
    | none =>
      simp only [hg, Option.none_or, List.filterMap_cons, List.filterMap_nil,
        List.append_nil]
      exact ih
    | some c =>
      simp only [hg, List.filterMap_cons, List.filterMap_nil]
      rw [List.getLast?_concat]
      rfl

/-! ## Lemmas about response normalization and ask -/

lemma parse_response_text (fetch : String → Except String QueryResultData)
    (data : MessageData) (cid mid : String) :
    (parse_response fetch data cid mid).text
      = lastPayload (fun a => a.text) data.attachments := by
  show (scanAttachments fetch (data.status.getD "UNKNOWN") data.attachments).text
      = _
  rw [scanAttachments, scan_foldl_text]
  exact Option.or_none

lemma parse_response_sql (fetch : String → Except String QueryResultData)
    (data : MessageData) (cid mid : String) :
    (parse_response fetch data cid mid).sql
      = lastPayload (fun a => a.query) data.attachments := by
  show (scanAttachments fetch (data.status.getD "UNKNOWN") data.attachments).sql
      = _
  rw [scanAttachments, scan_foldl_sql]
  exact Option.or_none

lemma isTerminal_eq_true_iff (s : String) :
    isTerminal s = true ↔
      s = "COMPLETED" ∨ s = "FAILED" ∨ s = "CANCELLED" := by
  simp [isTerminal, Bool.or_eq_true, beq_iff_eq, or_assoc]

/-- Any `Except.ok` result of `poll` carries the conversation and message
ids that were passed in. -/
lemma poll_result_ok_ids (responses : Nat → Except String MessageData)
    (fetch : String → Except String QueryResultData) (cid mid : String)
    (r : GenieResult) (h : (poll responses fetch cid mid).result = .ok r) :
    r.conversation_id = some cid ∧ r.message_id = some mid := by
  rcases pollLoop_ok_characterization responses fetch cid mid 301 0
    POLL_INTERVAL_INITIAL 0 r h with h' | ⟨d, _, _, h'⟩
  · rw [h']; exact ⟨rfl, rfl⟩
  · rw [h']; exact ⟨rfl, rfl⟩

/-- Any `Except.ok` result of `poll` has a terminal-or-timeout status. -/
lemma poll_result_ok_status (responses : Nat → Except String MessageData)
    (fetch : String → Except String QueryResultData) (cid mid : String)
    (r : GenieResult) (h : (poll responses fetch cid mid).result = .ok r) :
    r.status = "COMPLETED" ∨ r.status = "FAILED" ∨ r.status = "CANCELLED" ∨
      r.status = "TIMEOUT" := by
  rcases pollLoop_ok_characterization responses fetch cid mid 301 0
    POLL_INTERVAL_INITIAL 0 r h with h' | ⟨d, _, ht, h'⟩
  · rw [h']
    exact Or.inr (Or.inr (Or.inr rfl))
  · cases hs : d.status with
    | none => rw [hs] at ht; exact absurd ht (by decide)
    | some s =>
      rw [hs] at ht
      have hst : (parse_response fetch d cid mid).status = s := by
        show d.status.getD "UNKNOWN" = s
        simp [hs]
      rw [h', hst]
      rcases (isTerminal_eq_true_iff s).mp ht with h'' | h'' | h'' <;>
        simp [h'']

lemma start_conversation_result_ok (env : Env) (question : String)
    (r : GenieResult) :
    start_conversation env question = .ok r →
      ∃ sd, env.startResp question = .ok sd ∧
        (poll env.pollResp env.fetchQR (sd.conversation_id.getD "")
          (start_msg_id sd)).result = .ok r := by
  unfold start_conversation
  cases hs : env.startResp question with
  | error e => intro h; exact absurd h (by simp)
  | ok sd => intro h; exact ⟨sd, rfl, h⟩

lemma follow_up_result_ok (env : Env) (cid question : String)
    (r : GenieResult) :
    follow_up env cid question = .ok r →
      ∃ fd, env.followResp cid question = .ok fd ∧
        (poll env.pollResp env.fetchQR cid (fd.id.getD "")).result = .ok r := by
  unfold follow_up
  cases hs : env.followResp cid question with
  | error e => intro h; exact absurd h (by simp)
  | ok fd => intro h; exact ⟨fd, rfl, h⟩

/-- Every `Except.ok` result of `ask` is an `Except.ok` result of `poll`
for some conversation and message id. -/
lemma ask_result_ok (env : Env) (question : String) (conv : Option String)
    (r : GenieResult) (h : ask env question conv = .ok r) :
    ∃ cid mid, (poll env.pollResp env.fetchQR cid mid).result = .ok r := by
  cases conv with
  | none =>
    rcases start_conversation_result_ok env question r h with ⟨sd, _, hp⟩
    exact ⟨_, _, hp⟩
  | some cid =>
    by_cases hc : cid = ""
    · have h' : start_conversation env question = .ok r := by
        simpa [ask, hc] using h
      rcases start_conversation_result_ok env question r h' with ⟨sd, _, hp⟩
      exact ⟨_, _, hp⟩
    · have h' : follow_up env cid question = .ok r := by
        simpa [ask, hc] using h
      rcases follow_up_result_ok env cid question r h' with ⟨fd, _, hp⟩
      exact ⟨_, _, hp⟩

/-- In follow-up mode the conversation id passed to `poll` is exactly the
caller's token. -/
lemma ask_some_result_ok (env : Env) (question cid : String)
    (r : GenieResult) (hc : cid ≠ "")
    (h : ask env question (some cid) = .ok r) :
    ∃ mid, (poll env.pollResp env.fetchQR cid mid).result = .ok r := by
  have h' : follow_up env cid question = .ok r := by
    simpa [ask, hc] using h
  rcases follow_up_result_ok env cid question r h' with ⟨fd, _, hp⟩
  exact ⟨fd.id.getD "", hp⟩

/-! ## Claims -/

/-- Claim C1: the normalized result's text is the last non-empty text payload
seen across the attachments, scanned in service order, and its generated
query (`sql`) is the last non-empty generated-query payload; `lastPayload` is
last-one-wins, i.e. the last present payload (`getLast?` of the payloads).
In particular a terminal response with a text-only attachment and a
query-only attachment yields a result carrying both. -/
theorem C1_last_nonempty_merge :
    (∀ (fetch : String → Except String QueryResultData) (data : MessageData)
        (cid mid : String),
      (parse_response fetch data cid mid).text
          = lastPayload (fun a => a.text) data.attachments ∧
        (parse_response fetch data cid mid).sql
          = lastPayload (fun a => a.query) data.attachments) ∧
    (∀ (g : Attachment → Option String) (atts : List Attachment),
      lastPayload g atts = (atts.filterMap g).getLast?) ∧
    (∀ (fetch : String → Except String QueryResultData) (cid mid t q : String),
      (parse_response fetch
          { status := some "COMPLETED"
            attachments := [{ text := some t }, { query := some q }] }
          cid mid).text = some t ∧
        (parse_response fetch
          { status := some "COMPLETED"
            attachments := [{ text := some t }, { query := some q }] }
          cid mid).sql = some q) := by
  refine ⟨fun fetch data cid mid =>
    ⟨parse_response_text fetch data cid mid, parse_response_sql fetch data cid mid⟩,
    lastPayload_eq_getLast, fun fetch cid mid t q => ⟨rfl, rfl⟩⟩

/-- Claim C2 counterexample: the sixth generated delay is
1.5^5 = 7.59375 = 243/32, not 7.59, so the delay sequence does not match
`1, 1.5, 2.25, 3.375, 5.0625, 7.59, 10, …` exactly. -/
theorem C2_counterexample :
    backoffDelay 5 = 243 / 32 ∧ ¬ backoffDelay 5 = 759 / 100 := by
  have h : backoffDelay 5 = 243 / 32 := by
    norm_num [backoffDelay, pymin, POLL_INTERVAL_INITIAL, POLL_INTERVAL_MAX]
  refine ⟨h, ?_⟩
  rw [h]
  norm_num

/-- Claim C2 (amended): the generated delays are
`1, 1.5, 2.25, 3.375, 5.0625, 7.59375, 10, 10, …` (the sixth delay is
7.59375, not 7.59), no delay ever exceeds 10, and the sleep delays recorded
by any run of the poll loop are exactly the successive values of this
generator. -/
theorem C2_amended_backoff_sequence :
    ((backoffDelay 0 = 1 ∧ backoffDelay 1 = 3 / 2 ∧ backoffDelay 2 = 9 / 4 ∧
      backoffDelay 3 = 27 / 8 ∧ backoffDelay 4 = 81 / 16 ∧
      backoffDelay 5 = 243 / 32 ∧ backoffDelay 6 = 10 ∧ backoffDelay 7 = 10) ∧
      (∀ n, backoffDelay n ≤ 10)) ∧
    (∀ (responses : Nat → Except String MessageData)
        (fetch : String → Except String QueryResultData) (cid mid : String),
      (poll responses fetch cid mid).delays
        = (List.range (poll responses fetch cid mid).delays.length).map
            backoffDelay) := by
  refine ⟨⟨?_, ?_⟩, ?_⟩
  · norm_num [backoffDelay, pymin, POLL_INTERVAL_INITIAL, POLL_INTERVAL_MAX]
  · intro n
    exact (backoffDelay_bounds n).2
  · intro responses fetch cid mid
    have h := pollLoop_delays_eq responses fetch cid mid 301 0 0 0
    rw [poll]
    have h0 : POLL_INTERVAL_INITIAL = backoffDelay 0 := rfl
    rw [h0]
    simpa using h

/-- Claim C3: when every status fetch succeeds but never shows a terminal
status, the poll loop exhausts its 300-unit budget and returns (does not
raise) the synthesized TIMEOUT result — a fixed human-readable error
message, unset text/sql, empty rows/columns, and the conversation and
message ids already obtained; likewise `ask` started fresh. -/
theorem C3_timeout_result :
    (∀ (responses : Nat → Except String MessageData)
        (fetch : String → Except String QueryResultData) (cid mid : String),
      (∀ k, ∃ d, responses k = .ok d ∧ isTerminal (d.status.getD "") = false) →
      (poll responses fetch cid mid).result = .ok (timeoutResult cid mid)) ∧
    (∀ (env : Env) (question : String) (sd : StartData),
      env.startResp question = .ok sd →
      (∀ k, ∃ d, env.pollResp k = .ok d ∧
        isTerminal (d.status.getD "") = false) →
      ask env question none
        = .ok (timeoutResult (sd.conversation_id.getD "") (start_msg_id sd))) ∧
    (∀ cid mid : String,
      (timeoutResult cid mid).status = "TIMEOUT" ∧
      (timeoutResult cid mid).error
          = some "Genie did not respond within the timeout period." ∧
      (timeoutResult cid mid).text = none ∧
      (timeoutResult cid mid).sql = none ∧
      (timeoutResult cid mid).columns = [] ∧
      (timeoutResult cid mid).rows = [] ∧
      (timeoutResult cid mid).conversation_id = some cid ∧
      (timeoutResult cid mid).message_id = some mid) := by
  refine ⟨?_, ?_, ?_⟩
  · intro responses fetch cid mid hall
    exact pollLoop_all_nonterminal responses fetch cid mid hall 301 0
      POLL_INTERVAL_INITIAL 0
  · intro env question sd hs hall
    show start_conversation env question = _
    unfold start_conversation
    rw [hs]
    exact pollLoop_all_nonterminal env.pollResp env.fetchQR _ _ hall 301 0
      POLL_INTERVAL_INITIAL 0
  · intro cid mid
    exact ⟨rfl, rfl, rfl, rfl, rfl, rfl, rfl, rfl⟩

/-- Claim C3 witness: a backend that always answers PENDING makes `poll`
return the TIMEOUT result. -/
theorem C3_timeout_result_witness :
    (poll (fun _ => .ok { status := some "PENDING" }) fetchFail "c" "m").result
      = .ok (timeoutResult "c" "m") :=
  C3_timeout_result.1 (fun _ => .ok { status := some "PENDING" }) fetchFail
    "c" "m" (fun _ => ⟨{ status := some "PENDING" }, rfl, rfl⟩)

/-- Claim C4: a query-result fetch is issued only when the terminal status
is COMPLETED and the attachment carries a non-empty tabular-result id; and
the fetch is best-effort — if every fetch fails, normalization still returns
status COMPLETED with the gathered text/query and empty columns/rows, and
the poll loop still returns it as a non-raising `Except.ok`. -/
theorem C4_best_effort_fetch :
    (∀ (fetch : String → Except String QueryResultData) (status : String)
        (atts : List Attachment) (aid : String),
      aid ∈ (scanAttachments fetch status atts).issued →
        status = "COMPLETED" ∧ aid ≠ "" ∧
          ∃ att ∈ atts, att.attachment_id = some aid) ∧
    (∀ (fetch : String → Except String QueryResultData) (data : MessageData)
        (cid mid : String),
      (∀ a, ∃ e, fetch a = Except.error e) →
      data.status = some "COMPLETED" →
      (parse_response fetch data cid mid).status = "COMPLETED" ∧
        (parse_response fetch data cid mid).columns = [] ∧
        (parse_response fetch data cid mid).rows = [] ∧
        (parse_response fetch data cid mid).text
            = lastPayload (fun a => a.text) data.attachments ∧
        (parse_response fetch data cid mid).sql
            = lastPayload (fun a => a.query) data.attachments) ∧
    (∀ (responses : Nat → Except String MessageData)
        (fetch : String → Except String QueryResultData) (cid mid : String)
        (data : MessageData),
      responses 0 = .ok data → data.status = some "COMPLETED" →
      (poll responses fetch cid mid).result
        = .ok (parse_response fetch data cid mid)) := by
  refine ⟨?_, ?_, ?_⟩
  · intro fetch status atts aid h
    rcases scan_issued_sound fetch status atts {} aid h with h' | h'
    · exact absurd h' (by simp)
    · exact h'
  · intro fetch data cid mid hf hs
    refine ⟨?_, ?_, ?_, parse_response_text fetch data cid mid,
      parse_response_sql fetch data cid mid⟩
    · show data.status.getD "UNKNOWN" = "COMPLETED"
      simp [hs]
    · exact (scan_cols_rows_of_fail fetch (data.status.getD "UNKNOWN")
        data.attachments {} hf).1
    · exact (scan_cols_rows_of_fail fetch (data.status.getD "UNKNOWN")
        data.attachments {} hf).2
  · intro responses fetch cid mid data hr hs
    rw [poll, pollLoop_step_terminal responses fetch cid mid 300 0
      POLL_INTERVAL_INITIAL 0 data (by norm_num [POLL_TIMEOUT]) hr
      (by rw [hs]; rfl)]

/-- Claim C4 witness: one COMPLETED attachment with a tabular-result id
whose fetch fails still normalizes to COMPLETED with the text and empty
columns/rows. -/
theorem C4_best_effort_fetch_witness :
    (parse_response fetchFail dataCompleted "c" "m").status = "COMPLETED" ∧
      (parse_response fetchFail dataCompleted "c" "m").columns = [] ∧
      (parse_response fetchFail dataCompleted "c" "m").rows = [] ∧
      (parse_response fetchFail dataCompleted "c" "m").text
          = lastPayload (fun a => a.text) dataCompleted.attachments ∧
      (parse_response fetchFail dataCompleted "c" "m").sql
          = lastPayload (fun a => a.query) dataCompleted.attachments :=
  C4_best_effort_fetch.2.1 fetchFail dataCompleted "c" "m"
    (fun _ => ⟨"net", rfl⟩) rfl

/-- Claim C5: if the remote submission call fails with a transport error,
`ask` propagates that error — it performs no retry and returns no
`GenieResult` at all (in particular none with a populated continuation
token), on both the start-conversation and the follow-up path. -/
theorem C5_submission_error :
    (∀ (env : Env) (question err : String),
      env.startResp question = .error err →
      ask env question none = .error err) ∧
    (∀ (env : Env) (cid question err : String), cid ≠ "" →
      env.followResp cid question = .error err →
      ask env question (some cid) = .error err) := by
  constructor
  · intro env question err h
    show start_conversation env question = _
    unfold start_conversation
    rw [h]
  · intro env cid question err hc h
    show (if cid = "" then start_conversation env question
      else follow_up env cid question) = _
    rw [if_neg hc]
    unfold follow_up
    rw [h]

/-- Claim C5 witness: a failing submission POST makes `ask` return the
transport error itself. -/
theorem C5_submission_error_witness :
    ask envSubmitFail "q" none = Except.error "boom" :=
  C5_submission_error.1 envSubmitFail "q" "boom" rfl

/-- Claim C6: a terminal FAILED or CANCELLED response does not raise: the
poll loop returns the normalized result, whose status is the remote status,
whose error is the normalized remote error message, whose text/sql are as
gathered from the attachments, and whose columns/rows are empty (no
tabular fetch is issued for a non-COMPLETED status). -/
theorem C6_failed_cancelled_result :
    ∀ (responses : Nat → Except String MessageData)
      (fetch : String → Except String QueryResultData) (cid mid : String)
      (data : MessageData) (s : String),
      responses 0 = .ok data → data.status = some s →
      s = "FAILED" ∨ s = "CANCELLED" →
      (poll responses fetch cid mid).result
          = .ok (parse_response fetch data cid mid) ∧
        (parse_response fetch data cid mid).status = s ∧
        (parse_response fetch data cid mid).error = normalizeError data.error ∧
        (parse_response fetch data cid mid).text
            = lastPayload (fun a => a.text) data.attachments ∧
        (parse_response fetch data cid mid).sql
            = lastPayload (fun a => a.query) data.attachments ∧
        (parse_response fetch data cid mid).columns = [] ∧
        (parse_response fetch data cid mid).rows = [] := by
  intro responses fetch cid mid data s hr hs hsc
  have ht : isTerminal (data.status.getD "") = true := by
    rw [hs]
    rcases hsc with rfl | rfl <;> rfl
  have hne : data.status.getD "UNKNOWN" ≠ "COMPLETED" := by
    rw [hs]
    rcases hsc with rfl | rfl <;> decide
  refine ⟨?_, ?_, rfl, parse_response_text fetch data cid mid,
    parse_response_sql fetch data cid mid, ?_, ?_⟩
  · rw [poll, pollLoop_step_terminal responses fetch cid mid 300 0
      POLL_INTERVAL_INITIAL 0 data (by norm_num [POLL_TIMEOUT]) hr ht]
  · show data.status.getD "UNKNOWN" = s
    simp [hs]
  · exact (scan_cols_rows_of_not_completed fetch (data.status.getD "UNKNOWN")
      data.attachments {} hne).1
  · exact (scan_cols_rows_of_not_completed fetch (data.status.getD "UNKNOWN")
      data.attachments {} hne).2

/-- Claim C6 witness: an immediately-FAILED response with a remote error
message yields the normalized FAILED result. -/
theorem C6_failed_cancelled_result_witness :
    (poll (fun _ => .ok dataFailed) fetchFail "c" "m").result
        = .ok (parse_response fetchFail dataFailed "c" "m") ∧
      (parse_response fetchFail dataFailed "c" "m").status = "FAILED" ∧
      (parse_response fetchFail dataFailed "c" "m").error
          = normalizeError dataFailed.error ∧
      (parse_response fetchFail dataFailed "c" "m").text
          = lastPayload (fun a => a.text) dataFailed.attachments ∧
      (parse_response fetchFail dataFailed "c" "m").sql
          = lastPayload (fun a => a.query) dataFailed.attachments ∧
      (parse_response fetchFail dataFailed "c" "m").columns = [] ∧
      (parse_response fetchFail dataFailed "c" "m").rows = [] :=
  C6_failed_cancelled_result (fun _ => .ok dataFailed) fetchFail "c" "m"
    dataFailed "FAILED" rfl rfl (Or.inl rfl)

/-- Claim C7 counterexample: a transport failure during submit and a
transport failure during polling surface to the caller as the very same
error value — not as two distinct error kinds — so the caller cannot tell
from the error which phase failed. -/
theorem C7_counterexample :
    ask envSubmitFail "q" none = Except.error "boom" ∧
      ask envPollFail "q" none = Except.error "boom" := by
  constructor
  · rfl
  · show (poll envPollFail.pollResp envPollFail.fetchQR "c" "m").result = _
    rw [poll, pollLoop_step_error envPollFail.pollResp envPollFail.fetchQR
      "c" "m" 300 0 POLL_INTERVAL_INITIAL 0 "boom"
      (by norm_num [POLL_TIMEOUT]) rfl]

/-- Claim C7 (amended): hard transport failures during submit and during
polling both propagate to the caller as the raw transport error (`ask`
fails with exactly the underlying error in either phase); they are the
same kind of error, so the phase is not distinguishable from the error
alone. -/
theorem C7_same_error_kind_amended :
    ∀ (env : Env) (question err : String),
      (env.startResp question = .error err →
        ask env question none = .error err) ∧
      (∀ sd, env.startResp question = .ok sd → env.pollResp 0 = .error err →
        ask env question none = .error err) := by
  intro env question err
  constructor
  · intro h
    show start_conversation env question = _
    unfold start_conversation
    rw [h]
  · intro sd hs hp
    show start_conversation env question = _
    unfold start_conversation
    rw [hs]
    show (poll env.pollResp env.fetchQR (sd.conversation_id.getD "")
      (start_msg_id sd)).result = _
    rw [poll, pollLoop_step_error env.pollResp env.fetchQR
      (sd.conversation_id.getD "") (start_msg_id sd) 300 0
      POLL_INTERVAL_INITIAL 0 err (by norm_num [POLL_TIMEOUT]) hp]

/-- Claim C7 (amended) witness: the same error value arises from a submit
failure and from a poll failure. -/
theorem C7_same_error_kind_amended_witness :
    ask envSubmitFail "w" none = Except.error "boom" ∧
      ask envPollFail "w" none = Except.error "boom" :=
  ⟨(C7_same_error_kind_amended envSubmitFail "w" "boom").1 rfl,
    (C7_same_error_kind_amended envPollFail "w" "boom").2
      { conversation_id := some "c", message_id := some "m" } rfl rfl⟩

/-- Claim C8: the poll loop always terminates after at most 300 iterations
(sleeps), because every generated delay is at least 1 and the loop stops
once the elapsed budget of 300 is reached. -/
theorem C8_poll_iterations_bounded :
    ∀ (responses : Nat → Except String MessageData)
      (fetch : String → Except String QueryResultData) (cid mid : String),
      (poll responses fetch cid mid).delays.length ≤ 300 ∧
        ∀ n, 1 ≤ backoffDelay n := by
  intro responses fetch cid mid
  constructor
  · exact pollLoop_len_le responses fetch cid mid 301 300 0
      POLL_INTERVAL_INITIAL 0 (by norm_num [POLL_INTERVAL_INITIAL])
      (by norm_num [POLL_TIMEOUT])
  · exact fun n => (backoffDelay_bounds n).1

/-- Claim C9: every `GenieResult` that `ask` returns (rather than raising)
has status COMPLETED, FAILED, CANCELLED or TIMEOUT — never PENDING or any
other value. -/
theorem C9_status_invariant :
    ∀ (env : Env) (question : String) (conv : Option String) (r : GenieResult),
      ask env question conv = .ok r →
      r.status = "COMPLETED" ∨ r.status = "FAILED" ∨ r.status = "CANCELLED" ∨
        r.status = "TIMEOUT" := by
  intro env question conv r h
  rcases ask_result_ok env question conv r h with ⟨cid, mid, hp⟩
  exact poll_result_ok_status env.pollResp env.fetchQR cid mid r hp

/-- Claim C9 witness: an immediately-COMPLETED backend returns a result
whose status is in the terminal set. -/
theorem C9_status_invariant_witness :
    ({ status := "COMPLETED", conversation_id := some "c",
        message_id := some "m" } : GenieResult).status = "COMPLETED" ∨
      ({ status := "COMPLETED", conversation_id := some "c",
          message_id := some "m" } : GenieResult).status = "FAILED" ∨
      ({ status := "COMPLETED", conversation_id := some "c",
          message_id := some "m" } : GenieResult).status = "CANCELLED" ∨
      ({ status := "COMPLETED", conversation_id := some "c",
          message_id := some "m" } : GenieResult).status = "TIMEOUT" :=
  C9_status_invariant envOk "q" none
    { status := "COMPLETED", conversation_id := some "c",
      message_id := some "m" }
    (by show (poll envOk.pollResp envOk.fetchQR "c" "m").result = _
        rw [poll, pollLoop_step_terminal envOk.pollResp envOk.fetchQR "c" "m"
          300 0 POLL_INTERVAL_INITIAL 0 { status := some "COMPLETED" }
          (by norm_num [POLL_TIMEOUT]) rfl rfl]
        rfl)

/-- Claim C10: in follow-up mode (a non-empty caller-supplied token), every
result `ask` returns carries exactly the caller's conversation id,
unchanged, whatever the outcome status. -/
theorem C10_token_threading :
    ∀ (env : Env) (question cid : String) (r : GenieResult), cid ≠ "" →
      ask env question (some cid) = .ok r →
      r.conversation_id = some cid := by
  intro env question cid r hc h
  rcases ask_some_result_ok env question cid r hc h with ⟨mid, hp⟩
  exact (poll_result_ok_ids env.pollResp env.fetchQR cid mid r hp).1

/-- Claim C10 witness: a follow-up call with token "c" returns a result
carrying conversation id "c". -/
theorem C10_token_threading_witness :
    ({ status := "COMPLETED", conversation_id := some "c",
        message_id := some "m" } : GenieResult).conversation_id = some "c" :=
  C10_token_threading envOk "q" "c"
    { status := "COMPLETED", conversation_id := some "c",
      message_id := some "m" }
    (by decide)
    (by show (poll envOk.pollResp envOk.fetchQR "c" "m").result = _
        rw [poll, pollLoop_step_terminal envOk.pollResp envOk.fetchQR "c" "m"
          300 0 POLL_INTERVAL_INITIAL 0 { status := some "COMPLETED" }
          (by norm_num [POLL_TIMEOUT]) rfl rfl]
        rfl)
